import Mathlib

/-!
Verification of the disease-statistics HTTP services (hiv.py, malaria.py,
measles.py, charts_api.py, malaria_charts.py, measles_charts.py).

The services are shallowly embedded: pandas DataFrames become Lean lists of
typed rows, CSV cells become `Option String` (`none` models a NaN produced by
`pd.read_csv`, `some s` a non-missing value whose Python `str()` rendering is
`s`), and each Flask route handler becomes a pure function from the current
file-system contents and the request parameters to a `Response` together with
the list of I/O effects it performs.  Numbers use `ℚ` (pandas floats are only
compared, summed and averaged here) and `ℤ`/`ℕ` for Python ints.
-/

/-! ### Characters and strings

Python-style helpers, written over `List Char` so that everything reduces in
the kernel. -/

/-- The first maximal run of decimal digits in a character list, as matched by
the regular expression `\d+` (`re.search(r'\d+', s)` / `str.extract(r'(\d+)')`). -/
def firstDigitRun (l : List Char) : Option (List Char) :=
  let rest := l.dropWhile (fun c => !c.isDigit)
  match rest with
  | [] => none
  | _ :: _ => some (rest.takeWhile (fun c => c.isDigit))

/-- Digits to the natural number they denote (`int("...")` on a digit string). -/
def digitsToNat (l : List Char) : Nat :=
  l.foldl (fun n c => 10 * n + (c.toNat - 48)) 0

/-- `s.replace(',', '')`: remove every comma. -/
def removeCommas (l : List Char) : List Char :=
  l.filter (fun c => c ≠ ',')

/-- A CSV cell as held by a pandas DataFrame after `pd.read_csv`:
`none` is NaN (a missing value), `some s` is a non-missing value whose
Python `str()` rendering is `s`. -/
abbrev Cell := Option String

/-- Python `str()` applied to a cell.  `str` of the NaN float is `"nan"`. -/
def pyStr (v : Cell) : String :=
  match v with
  | none => "nan"
  | some s => s

/-- Lower-case a character list (`str.lower()`). -/
def lowerChars (l : List Char) : List Char :=
  l.map Char.toLower

/-- Lower-case a string (`str.lower()`), via its character list. -/
def strLower (s : String) : String :=
  ⟨lowerChars s.data⟩

/-- Whether `pre` is a prefix of `l` (character-wise). -/
def charsHavePre : List Char → List Char → Bool
  | [], _ => true
  | _ :: _, [] => false
  | p :: ps, c :: cs => p = c && charsHavePre ps cs

/-- Whether `needle` occurs as a contiguous sublist of `hay`. -/
def charsContain (hay needle : List Char) : Bool :=
  match hay with
  | [] => charsHavePre needle []
  | _ :: rest => charsHavePre needle hay || charsContain rest needle

/-- The characters the Python `re` module treats specially. -/
def reMetaChars : List Char :=
  ['.', '^', '$', '*', '+', '?', '\x7b', '\x7d', '[', ']', '\\', '|', '(', ')']

/-- Whether the parentheses of a pattern are balanced (depth never negative,
zero at the end). -/
def parensBalanced : List Char → Nat → Bool
  | [], d => d = 0
  | c :: cs, d =>
      if c = '(' then parensBalanced cs (d + 1)
      else if c = ')' then
        match d with
        | 0 => false
        | d' + 1 => parensBalanced cs d'
      else parensBalanced cs d

/-- Whether a pattern lies in the regular-expression fragment this model
covers and compiles: literal characters and balanced plain groups.  A pattern
with an unbalanced parenthesis makes `re.compile` raise `re.error`; the
services never catch it.  Patterns using the other metacharacters are outside
the fragment (no theorem below quantifies over them) and are conservatively
routed to the same raising branch. -/
def rePatOk (pat : List Char) : Bool :=
  pat.all (fun c => !(c ∈ reMetaChars) || c = '(' || c = ')')
    && parensBalanced pat 0

/-- Drop grouping parentheses from a pattern.  In the fragment of literals
and balanced plain groups, `re.search(pat, s)` succeeds exactly when the
pattern with its parentheses removed occurs literally in `s` (groups only
capture, they do not change what matches). -/
def reStrip (pat : List Char) : List Char :=
  pat.filter (fun c => c ≠ '(' ∧ c ≠ ')')

/-- `df['country'].str.contains(q, case=False)` for a pattern that compiles
in the covered fragment: the paren-stripped pattern occurs (case-insensitively)
in the country name.  For a metacharacter-free query this is the literal
case-insensitive substring test. -/
def containsCI (hay q : String) : Bool :=
  charsContain (lowerChars hay.data) (reStrip (lowerChars q.data))

/-- The claim's literal reading of "case-insensitively contains", used to
state how the regex behaviour of `str.contains` diverges from it. -/
def literalContainsCI (hay q : String) : Bool :=
  charsContain (lowerChars hay.data) (lowerChars q.data)

/-- Split a character list on commas (`s.split(',')`). -/
def splitCommaAux : List Char → List Char → List String
  | [], acc => [⟨acc.reverse⟩]
  | c :: cs, acc =>
      if c = ',' then ⟨acc.reverse⟩ :: splitCommaAux cs []
      else splitCommaAux cs (c :: acc)

/-- `s.split(',')`. -/
def splitComma (s : String) : List String :=
  splitCommaAux s.data []

/-- `str.strip()`: drop ASCII whitespace from both ends. -/
def stripStr (s : String) : String :=
  ⟨(s.data.dropWhile (fun c => c.isWhitespace)).reverse.dropWhile
      (fun c => c.isWhitespace) |>.reverse⟩

/-! ### Numeric parsing

`pd.to_numeric(x, errors='coerce')` parses a decimal literal (optional sign,
digits, optional fractional part) and yields NaN otherwise.  The model covers
plain decimal literals; the theorems below do not depend on which strings
parse, only on the `Option` plumbing around the parse. -/

/-- Value of a digit list read as an integer, `none` if empty or non-digit. -/
def parseDigits (l : List Char) : Option Nat :=
  match l with
  | [] => none
  | _ => if l.all (fun c => c.isDigit) then some (digitsToNat l) else none

/-- Parse an unsigned decimal literal `digits[.digits]` as a rational. -/
def parseUnsigned (l : List Char) : Option ℚ :=
  match l.span (fun c => c ≠ '.') with
  | (intPart, []) => (parseDigits intPart).map (fun n => (n : ℚ))
  | (intPart, _ :: fracPart) =>
      match parseDigits intPart, parseDigits fracPart with
      | some n, some f => some ((n : ℚ) + (f : ℚ) / ((10 : ℚ) ^ fracPart.length))
      | _, _ => none

/-- Parse a decimal literal with optional sign. -/
def parseNum (s : String) : Option ℚ :=
  match s.data with
  | '-' :: rest => (parseUnsigned rest).map (fun q => -q)
  | l => parseUnsigned l

/-- `pd.to_numeric(v, errors='coerce')` on one cell: NaN stays NaN, a
non-numeric string becomes NaN, a numeric literal becomes its value. -/
def to_numeric (v : Cell) : Option ℚ :=
  v.bind parseNum

/-- One cell of `df.fillna(0)` on a numeric column: NaN becomes `0`. -/
def fillna0 (v : Option ℚ) : Option ℚ :=
  some (v.getD 0)

/-- The coerce-then-fill cleaning used by `load_data` (charts_api.py) and
`load_measles_data` (measles_charts.py):
`pd.to_numeric(col, errors='coerce')` followed by `fillna(0)`. -/
def coerceFill (v : Cell) : Option ℚ :=
  fillna0 (to_numeric v)

/-- The value of a cleaned numeric cell.  After `fillna(0)` every cell is
populated, and pandas aggregations (`sum`, `mean`, `nlargest`) skip NaN,
which coincides with reading missing values as `0`. -/
def cellVal (v : Option ℚ) : ℚ :=
  v.getD 0

/-! ### malaria.py: `extract_number`, and the column chain of
`load_malaria_data` in malaria_charts.py -/

/-- `extract_number` from `get_malaria_data` (malaria.py):
return 0 on NaN, else remove commas from `str(val)`, take the first run of
digits as an int, else 0. -/
def extract_number (val : Cell) : ℤ :=
  if val.isNone then 0
  else
    match firstDigitRun (removeCommas (pyStr val).data) with
    | some ds => (digitsToNat ds : ℤ)
    | none => 0

/-- The extraction stage of the column chain in `load_malaria_data`
(malaria_charts.py): `astype(str)` (so NaN becomes the string `"nan"`),
`.str.replace(',', '')`, `.str.extract(r'(\d+)')`.  `none` models the NaN
that `str.extract` yields when no digit occurs. -/
def malariaExtractStage (val : Cell) : Option Nat :=
  (firstDigitRun (removeCommas (pyStr val).data)).map digitsToNat

/-- `.astype(int)`: numpy casts to int64 and raises `OverflowError` when the
Python int does not fit ("Python int too large to convert to C long"). -/
def astypeInt64 (n : Nat) : Except String ℤ :=
  if n < 2 ^ 63 then Except.ok (n : ℤ)
  else Except.error "OverflowError: Python int too large to convert to C long"

/-- The full per-cell column chain of `load_malaria_data`
(malaria_charts.py): extraction stage, then `.fillna(0).astype(int)` — the
cast raises on a digit run of 2^63 or more. -/
def chartsChainClean (val : Cell) : Except String ℤ :=
  astypeInt64 ((malariaExtractStage val).getD 0)

/-! ### Wide tables and `df.melt`

`malaria_data.csv` and `data.csv` are read with `header=1`: one `country`
column followed by one column per year.  `df.melt(id_vars='country')` stacks
the year columns one after another, each contributing one long row per wide
row. -/

/-- One row of a wide per-year table: the country name and the per-year cells,
aligned with the table's column list. -/
structure WideRow where
  country : String
  cells : List Cell
deriving DecidableEq

/-- A wide per-year table: year column names and rows. -/
structure WideTable where
  cols : List String
  rows : List WideRow
deriving DecidableEq

/-- One row of the melted (long) table: country, year column name, raw cell. -/
structure LongRow where
  country : String
  year : String
  val : Cell
deriving DecidableEq

/-- The cell of a wide row at column index `i` (missing positions read as NaN,
as pandas pads short CSV records with NaN). -/
def cellAt (r : WideRow) (i : Nat) : Cell :=
  (r.cells.get? i).getD none

/-- `df.melt(id_vars='country', var_name='year', value_name=...)`: stack the
year columns, column by column. -/
def meltFrom (rows : List WideRow) : List String → Nat → List LongRow
  | [], _ => []
  | c :: cs, i =>
      rows.map (fun r => ⟨r.country, c, cellAt r i⟩) ++ meltFrom rows cs (i + 1)

/-- Melt a wide table into long rows. -/
def melt (t : WideTable) : List LongRow :=
  meltFrom t.rows t.cols 0

/-! ### `df.groupby('country')`

pandas iterates groups in sorted key order; each group holds exactly the rows
whose key equals the group key, in their original order. -/

/-- Byte-wise `≤` on character lists (string comparison). -/
def leCharList : List Char → List Char → Bool
  | [], _ => true
  | _ :: _, [] => false
  | a :: as, b :: bs => if a = b then leCharList as bs else decide (a < b)

/-- String comparison used to order group keys. -/
def leStr (a b : String) : Bool :=
  leCharList a.data b.data

/-- The distinct values of a key column, in sorted order (the group keys of
`df.groupby`). -/
def sortedDedupStr (l : List String) : List String :=
  List.insertionSort (fun a b => leStr a b = true) l.dedup

/-- `df.groupby(key)`: one `(key, rows-with-that-key)` pair per distinct key. -/
def groupByCountry {α : Type} (key : α → String) (rows : List α) :
    List (String × List α) :=
  (sortedDedupStr (rows.map key)).map
    (fun c => (c, rows.filter (fun r => key r = c)))

/-! ### The three JSON data endpoints' pipelines

* `get_aids_data` (hiv.py): `aids.csv` is already long (one row per country
  and year); the handler selects/renames columns and groups by country.
* `get_malaria_data` (malaria.py): melt `malaria_data.csv`, clean the `cases`
  column with `extract_number`, group by country.
* `get_death_data` (measles.py): melt `data.csv`, drop rows whose `cases`
  is NaN (`dropna(subset=['cases'])`), group by country. -/

/-- The `Data.`-prefixed columns of `aids.csv` (the columns `load_data`
converts to numeric, including the three kept by `get_aids_data`). -/
inductive ACol where
  | deathsAllAges | deathsAdults | deathsChildren | deathsOrphans
  | deathsFemaleAdults | deathsMaleAdults
  | infectionsAllAges | infectionsAdults | infectionsChildren
  | incidenceRateAdults
  | plhivTotal | plhivAdults | plhivChildren
  | prevalenceAdults | prevalenceYoungMen | prevalenceYoungWomen
deriving DecidableEq

/-- One row of `aids.csv` as read by `pd.read_csv`: country, year, and the
raw `Data.` cells. -/
structure AidsRawRow where
  country : String
  year : ℚ
  data : ACol → Cell

/-- `get_aids_data` (hiv.py): group the (column-selected) rows by country.
Column selection and renaming touch no row, so the grouped rows are the
table's rows. -/
def get_aids_groups (rows : List AidsRawRow) : List (String × List AidsRawRow) :=
  groupByCountry (fun r => r.country) rows

/-- One cleaned row of the melted malaria table: country, year column name,
and the integer produced by `extract_number`. -/
structure MalLong where
  country : String
  year : String
  cases : ℤ
deriving DecidableEq

/-- The melted and cleaned table of `get_malaria_data` (malaria.py):
`df.melt(id_vars='country', var_name='year', value_name='cases')` followed by
`melted_df['cases'].apply(extract_number)`. -/
def malariaDataRows (t : WideTable) : List MalLong :=
  (melt t).map (fun r => ⟨r.country, r.year, extract_number r.val⟩)

/-- `get_malaria_data` (malaria.py): group the cleaned melted rows by country. -/
def get_malaria_groups (t : WideTable) : List (String × List MalLong) :=
  groupByCountry (fun r => r.country) (malariaDataRows t)

/-- The melted table of `get_death_data` (measles.py) after
`dropna(subset=['cases'])`: melted rows whose value is not NaN. -/
def measlesDataRows (t : WideTable) : List LongRow :=
  (melt t).filter (fun r => r.val.isSome)

/-- `get_death_data` (measles.py): group the NaN-dropped melted rows by
country. -/
def get_death_data_groups (t : WideTable) : List (String × List LongRow) :=
  groupByCountry (fun r => r.country) (measlesDataRows t)

/-! ### The cleaned wide malaria table of malaria_charts.py -/

/-- A wide row after `load_malaria_data`'s cleaning: every cell an integer. -/
structure WideRowZ where
  country : String
  cells : List ℤ
deriving DecidableEq

/-- Clean the cells of one row, propagating the first raised
`OverflowError`. -/
def cleanRowCells : List Cell → Except String (List ℤ)
  | [] => Except.ok []
  | c :: cs =>
      match chartsChainClean c, cleanRowCells cs with
      | Except.ok v, Except.ok vs => Except.ok (v :: vs)
      | Except.error m, _ => Except.error m
      | Except.ok _, Except.error m => Except.error m

/-- Clean every row, propagating the first raised `OverflowError`. -/
def cleanRows : List WideRow → Except String (List WideRowZ)
  | [] => Except.ok []
  | r :: rs =>
      match cleanRowCells r.cells, cleanRows rs with
      | Except.ok cs, Except.ok rest => Except.ok (⟨r.country, cs⟩ :: rest)
      | Except.error m, _ => Except.error m
      | Except.ok _, Except.error m => Except.error m

/-- The cleaning loop of `load_malaria_data` (malaria_charts.py): apply to
every year cell `astype(str).str.replace(',', '').str.extract(r'(\d+)')
.fillna(0).astype(int)`.  The source iterates column by column and raises at
the first overflowing column; the model traverses row-wise, which yields the
same table on success and raises exactly when some cell overflows. -/
def load_malaria_clean (t : WideTable) : Except String (List WideRowZ) :=
  cleanRows t.rows

/-- Melt an integer-valued wide table (used only to compare the two malaria
cleaning orders: melt-then-clean against clean-then-melt). -/
def meltZFrom (rows : List WideRowZ) : List String → Nat → List MalLong
  | [], _ => []
  | c :: cs, i =>
      rows.map (fun r => ⟨r.country, c, (r.cells.get? i).getD 0⟩)
        ++ meltZFrom rows cs (i + 1)

/-- A measles table whose single country has only NaN values: loading
succeeds, but `dropna` removes the country's only melted row. -/
def measlesNaNTable : WideTable :=
  ⟨["2019"], [⟨"A", [none]⟩]⟩

/-- A one-country malaria table used to instantiate the amended C1 theorem. -/
def malariaTinyTable : WideTable :=
  ⟨["2019"], [⟨"A", [some "5"]⟩]⟩

/-! ### `df.nlargest(n, col)`

pandas selects the `n` rows with largest values of the column (stable
descending sort, then take `n`; `keep='first'`). -/

instance decRelGe {α β : Type} [LinearOrder β] (f : α → β) :
    DecidableRel (fun a b : α => f b ≤ f a) :=
  fun a b => inferInstanceAs (Decidable (f b ≤ f a))

instance decRelLe {α β : Type} [LinearOrder β] (f : α → β) :
    DecidableRel (fun a b : α => f a ≤ f b) :=
  fun a b => inferInstanceAs (Decidable (f a ≤ f b))

instance isTotalGe {α β : Type} [LinearOrder β] (f : α → β) :
    IsTotal α (fun a b : α => f b ≤ f a) :=
  ⟨fun a b => le_total (f b) (f a)⟩

instance isTransGe {α β : Type} [LinearOrder β] (f : α → β) :
    IsTrans α (fun a b : α => f b ≤ f a) :=
  ⟨fun _ _ _ h1 h2 => le_trans h2 h1⟩

/-- `df.nlargest(n, col)` with metric `f`. -/
def nlargest {α β : Type} [LinearOrder β] (n : Nat) (f : α → β) (l : List α) :
    List α :=
  (List.insertionSort (fun a b => f b ≤ f a) l).take n

/-! ### Cleaned tables used by the charts services -/

/-- One row of `aids.csv` after `load_data` (charts_api.py): the `Data.`
columns coerced to numbers with NaN filled by 0.  `Option ℚ` is the value
space of a numeric pandas column (NaN = `none`). -/
structure AidsNumRow where
  country : String
  year : ℚ
  data : ACol → Option ℚ

/-- `load_data` (charts_api.py) on one row. -/
def load_data_row (r : AidsRawRow) : AidsNumRow :=
  ⟨r.country, r.year, fun c => coerceFill (r.data c)⟩

/-- `load_data` (charts_api.py) on the whole table (the success case). -/
def load_data_table (t : List AidsRawRow) : List AidsNumRow :=
  t.map load_data_row

/-- Value of a `Data.` column in a cleaned row (pandas aggregations skip
NaN, which reads missing values as 0; after `load_data` no cell is NaN). -/
def colVal (r : AidsNumRow) (c : ACol) : ℚ :=
  cellVal (r.data c)

/-- `series.max()`: NaN (= `none`) on an empty column. -/
def seriesMax : List ℚ → Option ℚ
  | [] => none
  | y :: ys =>
      some (match seriesMax ys with
            | none => y
            | some m => max y m)

/-- `df[df['Year'] == df['Year'].max()]`: the rows of the latest year (empty
when the table is empty, as a NaN max matches no row). -/
def latestRows (df : List AidsNumRow) : List AidsNumRow :=
  df.filter (fun r => seriesMax (df.map (fun x => x.year)) = some r.year)

/-- The top-10 selection of the `top_*` endpoints (charts_api.py):
`df_latest.nlargest(10, col)`. -/
def topSelect (df : List AidsNumRow) (c : ACol) : List AidsNumRow :=
  nlargest 10 (fun r => colVal r c) (latestRows df)

/-- The rows actually charted by the `top_*` endpoints: the top-10 selection
re-sorted ascending (`sort_values(col, ascending=True)`). -/
def topChartRows (df : List AidsNumRow) (c : ACol) : List AidsNumRow :=
  List.insertionSort (fun a b => colVal a c ≤ colVal b c) (topSelect df c)

/-- A wide row after `load_measles_data` (measles_charts.py): year cells
coerced to numeric with NaN filled by 0. -/
structure WideRowQ where
  country : String
  cells : List (Option ℚ)
deriving DecidableEq

/-- The row cleaning of `load_measles_data` (measles_charts.py):
`pd.to_numeric(col, errors='coerce')` per year column, then `df.fillna(0)`. -/
def load_measles_clean (t : WideTable) : List WideRowQ :=
  t.rows.map (fun r => ⟨r.country, r.cells.map coerceFill⟩)

/-- `df[years].sum(axis=1)` for the cleaned malaria table: the year columns
are all columns but `country`, so the row total is the sum of all cells. -/
def rowTotalZ (r : WideRowZ) : ℤ :=
  r.cells.sum

/-- `top = df.nlargest(10, 'total_deaths')` (malaria_charts.py). -/
def malariaTop (rows : List WideRowZ) : List WideRowZ :=
  nlargest 10 rowTotalZ rows

/-- `df[years].sum(axis=1)` for the cleaned measles table. -/
def rowTotalQ (r : WideRowQ) : ℚ :=
  (r.cells.map cellVal).sum

/-- `top = df.nlargest(10, 'total_cases')` (measles_charts.py). -/
def measlesTop (rows : List WideRowQ) : List WideRowQ :=
  nlargest 10 rowTotalQ rows

/-! ### The server model

Each service is a set of Flask route handlers.  A handler is embedded as a
pure function from the current file contents and the request parameters to
the HTTP response together with the I/O effects it performs (CSV reads and
`fig.savefig` into an in-memory `BytesIO` buffer; no handler contains any
file-writing call). -/

/-- The file system seen by the services: each CSV either parses to a table
or reading it raises an exception carrying a message. -/
structure Files where
  aids : Except String (List AidsRawRow)
  malaria : Except String WideTable
  measles : Except String WideTable

/-- JSON values (a NaN cell serializes as a null-like token; its exact
rendering is irrelevant to the claims). -/
inductive Json where
  | null
  | num (q : ℚ)
  | str (s : String)
  | arr (l : List Json)
  | obj (fields : List (String × Json))

/-- Serialization of a raw cell. -/
def cellJson (v : Cell) : Json :=
  match v with
  | none => Json.null
  | some s => Json.str s

/-- The chart data handed to matplotlib: the x/y series (and labels) each
endpoint plots.  The PNG bytes are a function of this data. -/
inductive Chart where
  | line (xs ys : List ℚ)
  | lineS (xs : List String) (ys : List ℚ)
  | multi (series : List (String × List ℚ × List ℚ))
  | multiS (xs : List String) (series : List (String × List ℚ))
  | barh (bars : List (String × ℚ))
  | triple (xs a b c : List ℚ)

/-- A response body: a JSON document, a rendered PNG, plain text, or the
500 page produced by an exception that escapes the handler. -/
inductive Body where
  | json (j : Json)
  | png (c : Chart)
  | text (s : String)
  | exn (msg : String)

/-- An HTTP response: status code, body, mimetype. -/
structure Response where
  status : Nat
  body : Body
  mimetype : Option String

/-- The I/O effects a handler can perform.  The write constructors exist so
that file changes are expressible; no handler emits one. -/
inductive Eff where
  | readCsv (name : String)
  | savefigBuffer
  | writeAids (c : Except String (List AidsRawRow))
  | writeMalaria (c : Except String WideTable)
  | writeMeasles (c : Except String WideTable)

/-- Apply one effect to the file system.  Reads and in-memory buffer writes
leave the files untouched. -/
def applyEff (fs : Files) : Eff → Files
  | .readCsv _ => fs
  | .savefigBuffer => fs
  | .writeAids c => { fs with aids := c }
  | .writeMalaria c => { fs with malaria := c }
  | .writeMeasles c => { fs with measles := c }

/-- `jsonify(...)` with a status code. -/
def jsonResp (status : Nat) (j : Json) : Response :=
  ⟨status, .json j, some "application/json"⟩

/-- `jsonify({"error": m}), status`. -/
def errorJson (status : Nat) (m : String) : Response :=
  ⟨status, .json (.obj [("error", .str m)]), some "application/json"⟩

/-- `send_file(save_plot_to_bytesio(fig), mimetype='image/png')`. -/
def pngResp (c : Chart) : Response :=
  ⟨200, .png c, some "image/png"⟩

/-! ### The three JSON endpoints as handlers -/

/-- One record of `get_aids_data`'s output: the selected and renamed columns
of one row. -/
def hivRecordJson (r : AidsRawRow) : Json :=
  .obj [("country", .str r.country), ("year", .num r.year),
        ("aids_related_deaths_all_ages", cellJson (r.data ACol.deathsAllAges)),
        ("new_hiv_infections_all_ages", cellJson (r.data ACol.infectionsAllAges)),
        ("people_living_with_hiv_total", cellJson (r.data ACol.plhivTotal))]

/-- The grouped result list serialized by the JSON endpoints. -/
def groupsJson {α : Type} (recJson : α → Json) (gs : List (String × List α)) :
    Json :=
  .arr (gs.map (fun p =>
    .obj [("country", .str p.1), ("data", .arr (p.2.map recJson))]))

/-- One record of `get_malaria_data`'s output (`group[['year', 'cases']]`). -/
def malariaRecordJson (r : MalLong) : Json :=
  .obj [("year", .str r.year), ("cases", .num r.cases)]

/-- One record of `get_death_data`'s output (`group[['year', 'cases']]`). -/
def measlesRecordJson (r : LongRow) : Json :=
  .obj [("year", .str r.year), ("cases", cellJson r.val)]

/-- The shape shared by the three JSON endpoints: the whole pipeline runs
inside `try`; a raised exception (here: reading the CSV) is answered with
status 500 and `{"error": str(e)}`, a clean run with the 200 JSON. -/
def jsonEndpoint {γ : Type} (e : Except String γ) (f : γ → Json) : Response :=
  match e with
  | .error m => errorJson 500 m
  | .ok t => jsonResp 200 (f t)

/-- `get_aids_data` (hiv.py). -/
def get_aids_data (fs : Files) : Response × List Eff :=
  (jsonEndpoint fs.aids
     (fun t => groupsJson hivRecordJson (get_aids_groups t)),
   [.readCsv "aids.csv"])

/-- `get_malaria_data` (malaria.py). -/
def get_malaria_data (fs : Files) : Response × List Eff :=
  (jsonEndpoint fs.malaria
     (fun t => groupsJson malariaRecordJson (get_malaria_groups t)),
   [.readCsv "malaria_data.csv"])

/-- `get_death_data` (measles.py). -/
def get_death_data (fs : Files) : Response × List Eff :=
  (jsonEndpoint fs.measles
     (fun t => groupsJson measlesRecordJson (get_death_data_groups t)),
   [.readCsv "data.csv"])

/-! ### charts_api.py -/

/-- `load_data` (charts_api.py): returns `None` when reading raises, else the
cleaned table. -/
def load_data (e : Except String (List AidsRawRow)) : Option (List AidsNumRow) :=
  match e with
  | .error _ => none
  | .ok t => some (load_data_table t)

/-- The shape shared by the simple charts_api.py endpoints: load, answer
`404 "Data not found"` on load failure, else render a chart to PNG. -/
def aidsChart (fs : Files) (mk : List AidsNumRow → Chart) : Response × List Eff :=
  match load_data fs.aids with
  | none => (⟨404, .text "Data not found", none⟩, [.readCsv "aids.csv"])
  | some df => (pngResp (mk df), [.readCsv "aids.csv", .savefigBuffer])

/-- Sorted distinct values of a rational column (`groupby('Year')` keys). -/
def sortedDedupQ (l : List ℚ) : List ℚ :=
  @List.insertionSort ℚ (fun a b => a ≤ b)
    (fun a b => inferInstanceAs (Decidable (a ≤ b))) l.dedup

/-- `df.groupby('Year')[col].sum()` as (year, sum) pairs in key order. -/
def sumByYear (df : List AidsNumRow) (c : ACol) : List (ℚ × ℚ) :=
  (sortedDedupQ (df.map (fun r => r.year))).map
    (fun y => (y, ((df.filter (fun r => r.year = y)).map
        (fun r => colVal r c)).sum))

/-- `df.groupby('Year')[col].mean()` as (year, mean) pairs in key order
(after `load_data` no cell is NaN, so the mean divides by the group size). -/
def meanByYear (df : List AidsNumRow) (c : ACol) : List (ℚ × ℚ) :=
  (sortedDedupQ (df.map (fun r => r.year))).map
    (fun y => (y, ((df.filter (fun r => r.year = y)).map
        (fun r => colVal r c)).sum
      / ((df.filter (fun r => r.year = y)).length : ℚ)))

/-- `ax.plot(series.index, series.values)`. -/
def lineOf (pts : List (ℚ × ℚ)) : Chart :=
  .line (pts.map Prod.fst) (pts.map Prod.snd)

/-- Two labelled `ax.plot` calls on one figure. -/
def multi2 (l1 : String) (p1 : List (ℚ × ℚ)) (l2 : String) (p2 : List (ℚ × ℚ)) :
    Chart :=
  .multi [(l1, p1.map Prod.fst, p1.map Prod.snd),
          (l2, p2.map Prod.fst, p2.map Prod.snd)]

/-- `ax.barh(top_10['Country'], top_10[col])` for the `top_*` endpoints. -/
def barhOf (df : List AidsNumRow) (c : ACol) : Chart :=
  .barh ((topChartRows df c).map (fun r => (r.country, colVal r c)))

def deaths_global (fs : Files) : Response × List Eff :=
  aidsChart fs (fun df => lineOf (sumByYear df .deathsAllAges))

def deaths_by_group (fs : Files) : Response × List Eff :=
  aidsChart fs (fun df => multi2 "Adults (15+)" (sumByYear df .deathsAdults)
    "Children (0-14)" (sumByYear df .deathsChildren))

def prevalence_global (fs : Files) : Response × List Eff :=
  aidsChart fs (fun df => lineOf (meanByYear df .prevalenceAdults))

def prevalence_young (fs : Files) : Response × List Eff :=
  aidsChart fs (fun df => multi2 "Young Men (15-24)"
    (meanByYear df .prevalenceYoungMen)
    "Young Women (15-24)" (meanByYear df .prevalenceYoungWomen))

def infections_global (fs : Files) : Response × List Eff :=
  aidsChart fs (fun df => lineOf (sumByYear df .infectionsAllAges))

def infections_by_group (fs : Files) : Response × List Eff :=
  aidsChart fs (fun df => multi2 "Adults (15+)" (sumByYear df .infectionsAdults)
    "Children (0-14)" (sumByYear df .infectionsChildren))

def plhiv_global (fs : Files) : Response × List Eff :=
  aidsChart fs (fun df => lineOf (sumByYear df .plhivTotal))

def plhiv_by_group (fs : Files) : Response × List Eff :=
  aidsChart fs (fun df => multi2 "Adults (15+)" (sumByYear df .plhivAdults)
    "Children (0-14)" (sumByYear df .plhivChildren))

def aids_orphans (fs : Files) : Response × List Eff :=
  aidsChart fs (fun df => lineOf (sumByYear df .deathsOrphans))

def deaths_by_gender (fs : Files) : Response × List Eff :=
  aidsChart fs (fun df => multi2 "Female Adults"
    (sumByYear df .deathsFemaleAdults)
    "Male Adults" (sumByYear df .deathsMaleAdults))

def incidence_rate (fs : Files) : Response × List Eff :=
  aidsChart fs (fun df => lineOf (meanByYear df .incidenceRateAdults))

def top_deaths (fs : Files) : Response × List Eff :=
  aidsChart fs (fun df => barhOf df .deathsAllAges)

def top_infections (fs : Files) : Response × List Eff :=
  aidsChart fs (fun df => barhOf df .infectionsAllAges)

def top_plhiv (fs : Files) : Response × List Eff :=
  aidsChart fs (fun df => barhOf df .plhivTotal)

def top_prevalence (fs : Files) : Response × List Eff :=
  aidsChart fs (fun df => barhOf df .prevalenceAdults)

/-- `country_profile` (charts_api.py): case-insensitive equality lookup on
`Country`, 404 when no row matches, else a triple-axis chart. -/
def country_profile_aids (fs : Files) (name : String) : Response × List Eff :=
  match load_data fs.aids with
  | none => (⟨404, .text "Data not found", none⟩, [.readCsv "aids.csv"])
  | some df =>
      let cd := df.filter (fun r => strLower r.country = strLower name)
      if cd.isEmpty then
        (errorJson 404 ("Data for country " ++ name ++ " not found."),
         [.readCsv "aids.csv"])
      else
        (pngResp (.triple (cd.map (fun r => r.year))
            (cd.map (fun r => colVal r .deathsAllAges))
            (cd.map (fun r => colVal r .infectionsAllAges))
            (cd.map (fun r => colVal r .plhivTotal))),
         [.readCsv "aids.csv", .savefigBuffer])

/-! ### malaria_charts.py -/

/-- The cleaned malaria table (every year cell an integer). -/
structure WideTableZ where
  cols : List String
  rows : List WideRowZ
deriving DecidableEq

/-- `load_malaria_data` (malaria_charts.py): an empty DataFrame on any
exception — a failed read as well as an `OverflowError` raised by the
cleaning loop — else the table with every year column cleaned to integers. -/
def load_malaria_data (e : Except String WideTable) : WideTableZ :=
  match e with
  | .error _ => ⟨[], []⟩
  | .ok t =>
      match load_malaria_clean t with
      | .error _ => ⟨[], []⟩
      | .ok rows => ⟨t.cols, rows⟩

/-- `int(y.strip())` for a year column label (labels in the data are
numeric). -/
def yearInt (s : String) : ℤ :=
  (((firstDigitRun (stripStr s).data).map digitsToNat).getD 0 : Nat)

/-- `_get_sorted_year_columns` (malaria_charts.py): the year columns sorted
by numeric value, kept with their positional index. -/
def sortedYearIdx (cols : List String) : List (Nat × String) :=
  @List.insertionSort (Nat × String) (fun a b => yearInt a.2 ≤ yearInt b.2)
    (fun a b => inferInstanceAs (Decidable (yearInt a.2 ≤ yearInt b.2)))
    cols.enum

/-- A year cell of a cleaned malaria row by column index. -/
def cellZ (r : WideRowZ) (i : Nat) : ℤ :=
  (r.cells.get? i).getD 0

/-- `df[years].sum()`: the per-year column sums. -/
def colSumZ (rows : List WideRowZ) (i : Nat) : ℤ :=
  (rows.map (fun r => cellZ r i)).sum

/-- `global_deaths` (malaria_charts.py). -/
def global_deaths (fs : Files) : Response × List Eff :=
  let df := load_malaria_data fs.malaria
  if df.rows.isEmpty then
    (errorJson 500 "Data could not be loaded or is empty",
     [.readCsv "malaria_data.csv"])
  else
    let ys := sortedYearIdx df.cols
    (pngResp (.lineS (ys.map Prod.snd)
        (ys.map (fun p => (colSumZ df.rows p.1 : ℚ)))),
     [.readCsv "malaria_data.csv", .savefigBuffer])

/-- `top_countries` (malaria_charts.py). -/
def top_countries_malaria (fs : Files) : Response × List Eff :=
  let df := load_malaria_data fs.malaria
  if df.rows.isEmpty then
    (errorJson 500 "Data could not be loaded or is empty",
     [.readCsv "malaria_data.csv"])
  else
    (pngResp (.barh ((malariaTop df.rows).map
        (fun r => (r.country, (rowTotalZ r : ℚ))))),
     [.readCsv "malaria_data.csv", .savefigBuffer])

/-- `country_profile` (malaria_charts.py): `request.args.get('country')` is
checked first (`None` or empty answers 400 before any load); then exact
case-insensitive match, falling back to regex-based case-insensitive
`str.contains` (run only when the exact match is empty; a query whose
pattern does not compile raises `re.error` uncaught, answered 500); the
first matching row is charted. -/
def country_profile_malaria : Files → Option String → Response × List Eff
  | _, none => (errorJson 400 "Country parameter is required", [])
  | fs, some q =>
      if q = "" then (errorJson 400 "Country parameter is required", [])
      else
        let df := load_malaria_data fs.malaria
        if df.rows.isEmpty then
          (errorJson 500 "Data could not be loaded or is empty",
           [.readCsv "malaria_data.csv"])
        else
          let exactRows := df.rows.filter
            (fun r => strLower r.country = strLower q)
          if exactRows.isEmpty then
            if rePatOk (lowerChars q.data) then
              match df.rows.filter (fun r => containsCI r.country q) with
              | [] => (errorJson 404 ("Country " ++ q ++ " not found"),
                       [.readCsv "malaria_data.csv"])
              | sel :: _ =>
                  let ys := sortedYearIdx df.cols
                  (pngResp (.lineS (ys.map Prod.snd)
                      (ys.map (fun p => (cellZ sel p.1 : ℚ)))),
                   [.readCsv "malaria_data.csv", .savefigBuffer])
            else
              (⟨500, .exn "re.error: missing ), unterminated subpattern",
                 none⟩,
               [.readCsv "malaria_data.csv"])
          else
            match exactRows with
            | [] => (errorJson 404 ("Country " ++ q ++ " not found"),
                     [.readCsv "malaria_data.csv"])
            | sel :: _ =>
                let ys := sortedYearIdx df.cols
                (pngResp (.lineS (ys.map Prod.snd)
                    (ys.map (fun p => (cellZ sel p.1 : ℚ)))),
                 [.readCsv "malaria_data.csv", .savefigBuffer])

/-- `compare_countries` (malaria_charts.py): comma-separated names, stripped
and lower-cased; selection by case-insensitive membership. -/
def compare_countries_malaria : Files → Option String → Response × List Eff
  | _, none => (errorJson 400 "At least one country name is required", [])
  | fs, some s =>
      if s = "" then (errorJson 400 "At least one country name is required", [])
      else
        let names := ((splitComma s).map (fun c => strLower (stripStr c))).filter
          (fun c => c ≠ "")
        if names.isEmpty then
          (errorJson 400 "No valid country names provided.", [])
        else
          let df := load_malaria_data fs.malaria
          if df.rows.isEmpty then
            (errorJson 500 "Data could not be loaded or is empty",
             [.readCsv "malaria_data.csv"])
          else
            let sel := df.rows.filter (fun r => strLower r.country ∈ names)
            if sel.isEmpty then
              (errorJson 404 "None of the specified countries were found or have data.",
               [.readCsv "malaria_data.csv"])
            else
              let ys := sortedYearIdx df.cols
              (pngResp (.multiS (ys.map Prod.snd)
                  (sel.map (fun r =>
                    (r.country, ys.map (fun p => (cellZ r p.1 : ℚ)))))),
               [.readCsv "malaria_data.csv", .savefigBuffer])

/-! ### measles_charts.py -/

/-- The cleaned measles table (year cells numeric, NaN filled with 0). -/
structure WideTableQ where
  cols : List String
  rows : List WideRowQ
deriving DecidableEq

/-- `load_measles_data` (measles_charts.py): an empty DataFrame on any
exception, else the table with year columns coerced and NaN filled by 0. -/
def load_measles_data (e : Except String WideTable) : WideTableQ :=
  match e with
  | .error _ => ⟨[], []⟩
  | .ok t => ⟨t.cols, load_measles_clean t⟩

/-- `years.sort()` (lexicographic string sort), kept with positional index. -/
def sortedColsLex (cols : List String) : List (Nat × String) :=
  @List.insertionSort (Nat × String) (fun a b => leStr a.2 b.2 = true)
    (fun a b => inferInstanceAs (Decidable (leStr a.2 b.2 = true)))
    cols.enum

/-- A year cell of a cleaned measles row by column index. -/
def cellQ (r : WideRowQ) (i : Nat) : ℚ :=
  cellVal ((r.cells.get? i).getD none)

/-- `df[years].sum()`: the per-year column sums. -/
def colSumQ (rows : List WideRowQ) (i : Nat) : ℚ :=
  (rows.map (fun r => cellQ r i)).sum

/-- `global_cases` (measles_charts.py). -/
def global_cases (fs : Files) : Response × List Eff :=
  let df := load_measles_data fs.measles
  if df.rows.isEmpty then
    (errorJson 500 "Data could not be loaded or is empty", [.readCsv "data.csv"])
  else
    let ys := sortedColsLex df.cols
    (pngResp (.lineS (ys.map Prod.snd) (ys.map (fun p => colSumQ df.rows p.1))),
     [.readCsv "data.csv", .savefigBuffer])

/-- `top_countries` (measles_charts.py). -/
def top_countries_measles (fs : Files) : Response × List Eff :=
  let df := load_measles_data fs.measles
  if df.rows.isEmpty then
    (errorJson 500 "Data could not be loaded or is empty", [.readCsv "data.csv"])
  else
    (pngResp (.barh ((measlesTop df.rows).map
        (fun r => (r.country, rowTotalQ r)))),
     [.readCsv "data.csv", .savefigBuffer])

/-- `country_profile` (measles_charts.py): parameter check, regex-based
case-insensitive `str.contains` lookup (an uncompilable pattern raises
`re.error` uncaught, answered 500; 404 when the lookup is empty), then a
case-sensitive exact filter replaces the fuzzy match when non-empty — but
when several fuzzy rows remain, the handler flattens all their year values
into one series whose length no longer matches the year axis, and `ax.plot`
raises an uncaught `ValueError`. -/
def country_profile_measles : Files → Option String → Response × List Eff
  | _, none => (errorJson 400 "Country parameter is required", [])
  | fs, some q =>
      if q = "" then (errorJson 400 "Country parameter is required", [])
      else
        let df := load_measles_data fs.measles
        if df.rows.isEmpty then
          (errorJson 500 "Data could not be loaded or is empty",
           [.readCsv "data.csv"])
        else
          if rePatOk (lowerChars q.data) then
            let row0 := df.rows.filter (fun r => containsCI r.country q)
            if row0.isEmpty then
              (errorJson 404 ("Country " ++ q ++ " not found"),
               [.readCsv "data.csv"])
            else
              let exactRows := df.rows.filter (fun r => r.country = q)
              let row := if !exactRows.isEmpty then exactRows else row0
              let ys := sortedColsLex df.cols
              let cases := row.flatMap (fun r => ys.map (fun p => cellQ r p.1))
              if cases.length = ys.length then
                (pngResp (.lineS (ys.map Prod.snd) cases),
                 [.readCsv "data.csv", .savefigBuffer])
              else
                (⟨500, .exn "ValueError: x and y must have same first dimension",
                   none⟩,
                 [.readCsv "data.csv"])
          else
            (⟨500, .exn "re.error: missing ), unterminated subpattern", none⟩,
             [.readCsv "data.csv"])

/-- `compare_countries` (measles_charts.py): comma-separated names, stripped
(not lower-cased); selection by exact membership (`isin`). -/
def compare_countries_measles : Files → Option String → Response × List Eff
  | _, none => (errorJson 400 "At least one country name is required", [])
  | fs, some s =>
      if s = "" then (errorJson 400 "At least one country name is required", [])
      else
        let names := ((splitComma s).map stripStr).filter (fun c => c ≠ "")
        if names.isEmpty then
          (errorJson 400 "No valid country names provided.", [])
        else
          let df := load_measles_data fs.measles
          if df.rows.isEmpty then
            (errorJson 500 "Data could not be loaded or is empty",
             [.readCsv "data.csv"])
          else
            let sel := df.rows.filter (fun r => r.country ∈ names)
            if sel.isEmpty then
              (errorJson 404 "None of the specified countries were found.",
               [.readCsv "data.csv"])
            else
              let ys := sortedColsLex df.cols
              (pngResp (.multiS (ys.map Prod.snd)
                  (sel.map (fun r => (r.country, ys.map (fun p => cellQ r p.1))))),
               [.readCsv "data.csv", .savefigBuffer])

/-! ### The routes of all six services -/

/-- Every route of the six services, with its request parameters. -/
inductive Req where
  | aidsData
  | malariaData
  | measlesData
  | deathsGlobal | deathsByGroup | prevalenceGlobal | prevalenceYoung
  | infectionsGlobal | infectionsByGroup | plhivGlobal | plhivByGroup
  | topDeaths | topInfections | topPlhiv | topPrevalence
  | aidsOrphans | deathsByGender | incidenceRate
  | aidsCountryProfile (name : String)
  | malariaGlobalDeaths
  | malariaTopCountries
  | malariaCountryProfile (param : Option String)
  | malariaCompareCountries (param : Option String)
  | measlesGlobalCases
  | measlesTopCountries
  | measlesCountryProfile (param : Option String)
  | measlesCompareCountries (param : Option String)
deriving DecidableEq

/-- Dispatch a request to its handler. -/
def route (fs : Files) : Req → Response × List Eff
  | .aidsData => get_aids_data fs
  | .malariaData => get_malaria_data fs
  | .measlesData => get_death_data fs
  | .deathsGlobal => deaths_global fs
  | .deathsByGroup => deaths_by_group fs
  | .prevalenceGlobal => prevalence_global fs
  | .prevalenceYoung => prevalence_young fs
  | .infectionsGlobal => infections_global fs
  | .infectionsByGroup => infections_by_group fs
  | .plhivGlobal => plhiv_global fs
  | .plhivByGroup => plhiv_by_group fs
  | .topDeaths => top_deaths fs
  | .topInfections => top_infections fs
  | .topPlhiv => top_plhiv fs
  | .topPrevalence => top_prevalence fs
  | .aidsOrphans => aids_orphans fs
  | .deathsByGender => deaths_by_gender fs
  | .incidenceRate => incidence_rate fs
  | .aidsCountryProfile name => country_profile_aids fs name
  | .malariaGlobalDeaths => global_deaths fs
  | .malariaTopCountries => top_countries_malaria fs
  | .malariaCountryProfile p => country_profile_malaria fs p
  | .malariaCompareCountries p => compare_countries_malaria fs p
  | .measlesGlobalCases => global_cases fs
  | .measlesTopCountries => top_countries_measles fs
  | .measlesCountryProfile p => country_profile_measles fs p
  | .measlesCompareCountries p => compare_countries_measles fs p

/-! ### The server's operational behaviour

A trace of events: the environment may replace CSV contents between
requests; the server handles requests one at a time (the development server
is single-threaded). -/

/-- An external event: a change of the CSV files, or an incoming request. -/
inductive Event where
  | write (fs : Files)
  | request (r : Req)

/-- An effect is benign when it is a CSV read or an in-memory buffer write. -/
def benignEff (e : Eff) : Prop :=
  (∃ n, e = Eff.readCsv n) ∨ e = Eff.savefigBuffer

/-- Step the file system by one event: a write replaces the files; a request
runs its handler and applies the handler's effects. -/
def stepFiles (fs : Files) : Event → Files
  | .write g => g
  | .request r => (route fs r).2.foldl applyEff fs

/-- The file system after the server has processed a list of events. -/
def runState (fs : Files) (events : List Event) : Files :=
  events.foldl stepFiles fs

/-- The file contents determined by the write events alone. -/
def filesAfter (fs : Files) (events : List Event) : Files :=
  events.foldl (fun f e => match e with | .write g => g | .request _ => f) fs

/-- The response the server computes for request `r` after processing
`events`. -/
def serve (fs : Files) (events : List Event) (r : Req) : Response :=
  (route (runState fs events) r).1

/-- The file system in which every CSV read raises. -/
def fsErr : Files :=
  ⟨Except.error "boom", Except.error "boom", Except.error "boom"⟩

/-! ### C6: the measles `country_profile` crash -/

/-- A measles table with two countries both containing "Gui". -/
def measlesGuineaTable : WideTable :=
  ⟨["2000", "2001"],
   [⟨"Guinea", [some "1", some "2"]⟩,
    ⟨"Guinea-Bissau", [some "3", some "4"]⟩]⟩

/-- File contents whose `data.csv` is the two-Guinea table. -/
def fsGuinea : Files :=
  ⟨Except.error "no aids", Except.error "no malaria",
   Except.ok measlesGuineaTable⟩

/-- File contents with the tiny malaria table as `malaria_data.csv`. -/
def malariaTinyFs : Files :=
  ⟨Except.error "na", Except.ok malariaTinyTable, Except.error "na"⟩

/-- A malaria cell whose digit run (about 10^19) exceeds int64: `astype(int)`
raises `OverflowError` in the charts service while `extract_number` in the
data service returns the Python int. -/
def overflowCell : Cell :=
  some "9999999999999999999"

/-- A malaria table holding the overflowing cell. -/
def malariaOverflowTable : WideTable :=
  ⟨["2019"], [⟨"A", [overflowCell]⟩]⟩

/-- A measles table with one parenthesis-free country name. -/
def measlesChadTable : WideTable :=
  ⟨["2000"], [⟨"Chad", [some "1"]⟩]⟩

/-- File contents whose `data.csv` is the Chad table. -/
def fsChad : Files :=
  ⟨Except.error "na", Except.error "na", Except.ok measlesChadTable⟩

/-- A measles table whose country name contains parentheses. -/
def measlesIranTable : WideTable :=
  ⟨["2000"], [⟨"Iran (Islamic Republic of)", [some "1"]⟩]⟩

/-- File contents whose `data.csv` is the Iran table. -/
def fsIran : Files :=
  ⟨Except.error "na", Except.error "na", Except.ok measlesIranTable⟩

/-! ## Theorems -/

theorem extract_number_eq_stage (val : Cell) :
    extract_number val = (((malariaExtractStage val).getD 0 : Nat) : ℤ) := by
  cases val with
  | none => decide
  | some s =>
      simp only [extract_number, malariaExtractStage,
        Option.isNone_some, Bool.false_eq_true, if_false, pyStr]
      cases firstDigitRun (removeCommas s.data) with
      | none => simp
      | some ds => simp

theorem extract_number_nonneg (val : Cell) : 0 ≤ extract_number val := by
  rw [extract_number_eq_stage]
  exact Int.natCast_nonneg _

theorem chartsChainClean_ok {val : Cell} {n : ℤ}
    (h : chartsChainClean val = Except.ok n) : extract_number val = n := by
  unfold chartsChainClean astypeInt64 at h
  split at h
  · injection h with h'
    rw [extract_number_eq_stage, h']
  · exact Except.noConfusion h

theorem chartsChainClean_lt {val : Cell}
    (h : (malariaExtractStage val).getD 0 < 2 ^ 63) :
    chartsChainClean val = Except.ok (extract_number val) := by
  unfold chartsChainClean astypeInt64
  rw [if_pos h, extract_number_eq_stage]

theorem cleanRowCells_ok :
    ∀ (cs : List Cell) (vs : List ℤ), cleanRowCells cs = Except.ok vs →
      vs = cs.map extract_number
  | [], vs, h => by
      injection h with h'
      rw [← h']
      rfl
  | c :: cs, vs, h => by
      unfold cleanRowCells at h
      cases hc : chartsChainClean c with
      | error m =>
          rw [hc] at h
          exact Except.noConfusion h
      | ok v =>
          cases hcs : cleanRowCells cs with
          | error m =>
              rw [hc, hcs] at h
              exact Except.noConfusion h
          | ok vs' =>
              rw [hc, hcs] at h
              injection h with h'
              rw [← h', List.map_cons, chartsChainClean_ok hc,
                cleanRowCells_ok cs vs' hcs]

theorem cleanRows_ok :
    ∀ (rs : List WideRow) (rz : List WideRowZ), cleanRows rs = Except.ok rz →
      rz = rs.map (fun r => ⟨r.country, r.cells.map extract_number⟩)
  | [], rz, h => by
      injection h with h'
      rw [← h']
      rfl
  | r :: rs, rz, h => by
      unfold cleanRows at h
      cases hc : cleanRowCells r.cells with
      | error m =>
          rw [hc] at h
          exact Except.noConfusion h
      | ok cs =>
          cases hrs : cleanRows rs with
          | error m =>
              rw [hc, hrs] at h
              exact Except.noConfusion h
          | ok rest =>
              rw [hc, hrs] at h
              injection h with h'
              rw [← h', List.map_cons, cleanRowCells_ok _ _ hc,
                cleanRows_ok rs rest hrs]

theorem sortedDedupStr_nodup (l : List String) : (sortedDedupStr l).Nodup :=
  (List.perm_insertionSort _ l.dedup).symm.nodup (List.nodup_dedup l)

theorem mem_sortedDedupStr {l : List String} {c : String} :
    c ∈ sortedDedupStr l ↔ c ∈ l := by
  unfold sortedDedupStr
  rw [(List.perm_insertionSort _ l.dedup).mem_iff, List.mem_dedup]

theorem flatMap_congr_aux {α β : Type} (f g : α → List β) :
    ∀ l : List α, (∀ a ∈ l, f a = g a) → l.flatMap f = l.flatMap g
  | [], _ => rfl
  | a :: l, h => by
      simp only [List.flatMap_cons, h a (by simp)]
      rw [flatMap_congr_aux f g l (fun b hb => h b (by simp [hb]))]

theorem flatMap_filter_perm {α : Type} (key : α → String) (ks : List String)
    (rows : List α) (hnd : ks.Nodup) (hcov : ∀ r ∈ rows, key r ∈ ks) :
    (ks.flatMap (fun c => rows.filter (fun r => key r = c))).Perm rows := by
  induction ks generalizing rows with
  | nil =>
      cases rows with
      | nil => simp
      | cons a l => exact absurd (hcov a (by simp)) (by simp)
  | cons k ks ih =>
      rw [List.nodup_cons] at hnd
      have hsplit := List.filter_append_perm (fun r => decide (key r = k)) rows
      have hcongr : ∀ c ∈ ks,
          rows.filter (fun r => key r = c)
            = (rows.filter (fun r => !decide (key r = k))).filter
                (fun r => key r = c) := by
        intro c hc
        rw [List.filter_filter]
        apply List.filter_congr
        intro r _
        by_cases h : key r = c
        · have hck : ¬ c = k := by
            intro e
            exact hnd.1 (e ▸ hc)
          simp [h, hck]
        · simp [h]
      have hbind : ks.flatMap (fun c => rows.filter (fun r => key r = c))
          = ks.flatMap (fun c =>
              (rows.filter (fun r => !decide (key r = k))).filter
                (fun r => key r = c)) :=
        flatMap_congr_aux _ _ ks hcongr
      have hcov' : ∀ r ∈ rows.filter (fun r => !decide (key r = k)),
          key r ∈ ks := by
        intro r hr
        rw [List.mem_filter] at hr
        have := hcov r hr.1
        rw [List.mem_cons] at this
        rcases this with h | h
        · exact absurd (decide_eq_true h) (by simpa using hr.2)
        · exact h
      rw [List.flatMap_cons, hbind]
      exact (List.Perm.append_left _ (ih _ hnd.2 hcov')).trans hsplit

theorem groupByCountry_keys {α : Type} (key : α → String) (rows : List α) :
    (groupByCountry key rows).map Prod.fst = sortedDedupStr (rows.map key) := by
  unfold groupByCountry
  rw [List.map_map]
  exact List.map_id _

theorem groupByCountry_filters {α : Type} (key : α → String) (rows : List α) :
    ∀ p ∈ groupByCountry key rows,
      p.2 = rows.filter (fun r => key r = p.1) := by
  intro p hp
  unfold groupByCountry at hp
  rw [List.mem_map] at hp
  obtain ⟨c, _, rfl⟩ := hp
  rfl

theorem groupByCountry_perm {α : Type} (key : α → String) (rows : List α) :
    ((groupByCountry key rows).flatMap Prod.snd).Perm rows := by
  unfold groupByCountry
  rw [List.flatMap_map]
  exact flatMap_filter_perm key _ rows
    (sortedDedupStr_nodup _)
    (fun r hr => mem_sortedDedupStr.mpr (List.mem_map_of_mem key hr))

theorem meltClean_eq (rows : List WideRow) :
    ∀ (cols : List String) (i : Nat),
      (meltFrom rows cols i).map
          (fun r => (⟨r.country, r.year, extract_number r.val⟩ : MalLong))
        = meltZFrom (rows.map (fun r => ⟨r.country, r.cells.map extract_number⟩))
            cols i
  | [], _ => rfl
  | c :: cs, i => by
      simp only [meltFrom, meltZFrom, List.map_append, List.map_map]
      rw [meltClean_eq rows cs (i + 1)]
      congr 1
      apply List.map_congr_left
      intro r _
      show (⟨r.country, c, extract_number (cellAt r i)⟩ : MalLong)
        = ⟨r.country, c, ((r.cells.map extract_number).get? i).getD 0⟩
      rw [List.get?_map]
      unfold cellAt
      cases h : r.cells.get? i with
      | none =>
          simp only [h, Option.getD_none, Option.map_none']
          simp [extract_number]
      | some v => simp

/-- C3 fails on the code: on a cell whose digit run is 2^63 or more,
`extract_number` (malaria.py) returns the Python int, while the column chain
of `load_malaria_data` (malaria_charts.py) raises `OverflowError` in
`astype(int)` — caught upstream, so the charts service sees an *empty* table
where the data service serves the value: the two services do not produce
identical cleaned tables from this CSV. -/
theorem malaria_cleaning_divergence :
    extract_number overflowCell = 9999999999999999999 ∧
    chartsChainClean overflowCell
      = Except.error "OverflowError: Python int too large to convert to C long" ∧
    malariaDataRows malariaOverflowTable
      = [⟨"A", "2019", 9999999999999999999⟩] ∧
    load_malaria_data (Except.ok malariaOverflowTable) = ⟨[], []⟩ :=
  ⟨by decide, rfl, by decide, rfl⟩

/-- C3 (amended): the per-cell cleaning of malaria.py (`extract_number`) and
the column chain of `load_malaria_data` in malaria_charts.py agree on every
cell on which the chain's `astype(int)` does not overflow int64 — whenever
the chain yields an integer it is `extract_number`'s integer, and below 2^63
the chain yields exactly `extract_number` — and whenever the charts service's
cleaning succeeds, the melt of its cleaned table equals the data service's
melted-and-cleaned table.  On an overflowing cell the chain raises instead,
and the services diverge. -/
theorem malaria_cleaning_equivalence :
    (∀ (val : Cell) (n : ℤ), chartsChainClean val = Except.ok n →
        extract_number val = n) ∧
    (∀ val : Cell, (malariaExtractStage val).getD 0 < 2 ^ 63 →
        chartsChainClean val = Except.ok (extract_number val)) ∧
    (∀ (t : WideTable) (rows : List WideRowZ),
        load_malaria_clean t = Except.ok rows →
        malariaDataRows t = meltZFrom rows t.cols 0) :=
  ⟨fun _ _ h => chartsChainClean_ok h,
   fun _ h => chartsChainClean_lt h,
   fun t rows h => by
     rw [show rows = t.rows.map
           (fun r => ⟨r.country, r.cells.map extract_number⟩) from
         cleanRows_ok t.rows rows h]
     exact meltClean_eq t.rows t.cols 0⟩

theorem malaria_cleaning_equivalence_witness :
    chartsChainClean (some "5") = Except.ok (extract_number (some "5")) :=
  malaria_cleaning_equivalence.2.1 (some "5") (by decide)

theorem groupByCountry_spec {α : Type} (key : α → String) (rows : List α) :
    ((groupByCountry key rows).map Prod.fst).Nodup ∧
    (∀ c, c ∈ (groupByCountry key rows).map Prod.fst ↔ c ∈ rows.map key) ∧
    (∀ p ∈ groupByCountry key rows,
        p.2 = rows.filter (fun r => key r = p.1)) ∧
    ((groupByCountry key rows).flatMap Prod.snd).Perm rows :=
  ⟨by rw [groupByCountry_keys]; exact sortedDedupStr_nodup _,
   fun c => by rw [groupByCountry_keys]; exact mem_sortedDedupStr,
   groupByCountry_filters key rows,
   groupByCountry_perm key rows⟩

/-- C1 counterexample: for `get_death_data` (measles.py) the claim fails on a
successfully loaded CSV whose country `A` has only NaN cells: `A` is a
distinct country value of the table, yet the returned list has no element for
it (the melted row is removed by `dropna` before grouping), so a row of the
wide table is lost and the list does not have one element per distinct
country of the table. -/
theorem measles_reshape_counterexample :
    "A" ∈ measlesNaNTable.rows.map WideRow.country ∧
    get_death_data_groups measlesNaNTable = [] := by
  decide

/-- C1 (amended): each JSON data endpoint returns one element per distinct
country value among its reshaped rows — for hiv.py the table's rows
themselves, for malaria.py the melted-and-cleaned rows, for measles.py the
melted rows that survive `dropna` — with `data` holding exactly the records
of that country, and no reshaped row lost or duplicated. -/
theorem json_reshape_amended :
    (∀ rows : List AidsRawRow,
      ((get_aids_groups rows).map Prod.fst).Nodup ∧
      (∀ c, c ∈ (get_aids_groups rows).map Prod.fst
          ↔ c ∈ rows.map (fun r => r.country)) ∧
      (∀ p ∈ get_aids_groups rows,
          p.2 = rows.filter (fun r => r.country = p.1)) ∧
      ((get_aids_groups rows).flatMap Prod.snd).Perm rows) ∧
    (∀ t : WideTable,
      ((get_malaria_groups t).map Prod.fst).Nodup ∧
      (∀ c, c ∈ (get_malaria_groups t).map Prod.fst
          ↔ c ∈ (malariaDataRows t).map (fun r => r.country)) ∧
      (∀ p ∈ get_malaria_groups t,
          p.2 = (malariaDataRows t).filter (fun r => r.country = p.1)) ∧
      ((get_malaria_groups t).flatMap Prod.snd).Perm (malariaDataRows t)) ∧
    (∀ t : WideTable,
      ((get_death_data_groups t).map Prod.fst).Nodup ∧
      (∀ c, c ∈ (get_death_data_groups t).map Prod.fst
          ↔ c ∈ (measlesDataRows t).map (fun r => r.country)) ∧
      (∀ p ∈ get_death_data_groups t,
          p.2 = (measlesDataRows t).filter (fun r => r.country = p.1)) ∧
      ((get_death_data_groups t).flatMap Prod.snd).Perm (measlesDataRows t)) :=
  ⟨fun rows => groupByCountry_spec _ rows,
   fun t => groupByCountry_spec _ (malariaDataRows t),
   fun t => groupByCountry_spec _ (measlesDataRows t)⟩

theorem json_reshape_amended_witness :
    (("A", [(⟨"A", "2019", (5 : ℤ)⟩ : MalLong)]) : String × List MalLong).2
      = (malariaDataRows malariaTinyTable).filter
          (fun r => r.country = ("A", [(⟨"A", "2019", (5 : ℤ)⟩ : MalLong)]).1) :=
  (json_reshape_amended.2.1 malariaTinyTable).2.2.1
    ("A", [⟨"A", "2019", (5 : ℤ)⟩]) (by decide)

theorem nlargest_spec {α β : Type} [LinearOrder β] (n : Nat) (f : α → β)
    (l : List α) :
    (nlargest n f l).length ≤ n ∧
    ∃ rest : List α, (nlargest n f l ++ rest).Perm l ∧
      ∀ x ∈ nlargest n f l, ∀ y ∈ rest, f y ≤ f x := by
  refine ⟨List.length_take_le n _,
    (List.insertionSort (fun a b => f b ≤ f a) l).drop n, ?_, ?_⟩
  · rw [nlargest, List.take_append_drop]
    exact List.perm_insertionSort _ l
  · have hs : List.Pairwise (fun a b => f b ≤ f a)
        (List.insertionSort (fun a b => f b ≤ f a) l) :=
      List.sorted_insertionSort _ l
    rw [← List.take_append_drop n
      (List.insertionSort (fun a b => f b ≤ f a) l)] at hs
    exact fun x hx y hy => (List.pairwise_append.mp hs).2.2 x hx y hy

theorem resorted_top_spec {α β : Type} [LinearOrder β]
    (g : α → α → Prop) [DecidableRel g] (n : Nat) (f : α → β) (l : List α) :
    (List.insertionSort g (nlargest n f l)).length ≤ n ∧
    ∃ rest : List α,
      (List.insertionSort g (nlargest n f l) ++ rest).Perm l ∧
      ∀ x ∈ List.insertionSort g (nlargest n f l), ∀ y ∈ rest, f y ≤ f x := by
  obtain ⟨hlen, rest, hperm, hge⟩ := nlargest_spec n f l
  have hp := List.perm_insertionSort g (nlargest n f l)
  refine ⟨hp.length_eq ▸ hlen, rest, ?_, ?_⟩
  · exact (hp.append (List.Perm.refl rest)).trans hperm
  · exact fun x hx y hy => hge x (hp.mem_iff.mp hx) y hy

/-- C2: every top-countries endpoint charts at most 10 rows, and every
charted row's metric is at least the metric of every row not charted.  For
charts_api.py (`top_deaths`, `top_infections`, `top_plhiv`,
`top_prevalence`) the pool is the rows of the latest year and the statement
holds for every metric column; for malaria_charts.py and measles_charts.py
(`top_countries`) the pool is all country rows with their all-years totals. -/
theorem top_charts_top10 :
    (∀ (df : List AidsNumRow) (c : ACol),
      (topChartRows df c).length ≤ 10 ∧
      ∃ rest, (topChartRows df c ++ rest).Perm (latestRows df) ∧
        ∀ x ∈ topChartRows df c, ∀ y ∈ rest, colVal y c ≤ colVal x c) ∧
    (∀ rows : List WideRowZ,
      (malariaTop rows).length ≤ 10 ∧
      ∃ rest, (malariaTop rows ++ rest).Perm rows ∧
        ∀ x ∈ malariaTop rows, ∀ y ∈ rest, rowTotalZ y ≤ rowTotalZ x) ∧
    (∀ rows : List WideRowQ,
      (measlesTop rows).length ≤ 10 ∧
      ∃ rest, (measlesTop rows ++ rest).Perm rows ∧
        ∀ x ∈ measlesTop rows, ∀ y ∈ rest, rowTotalQ y ≤ rowTotalQ x) :=
  ⟨fun df c => resorted_top_spec _ 10 (fun r => colVal r c) (latestRows df),
   fun rows => nlargest_spec 10 rowTotalZ rows,
   fun rows => nlargest_spec 10 rowTotalQ rows⟩

theorem top_charts_top10_witness :
    (malariaTop [⟨"A", [1, 2]⟩, ⟨"B", [3]⟩]).length ≤ 10 ∧
    ∃ rest, (malariaTop [⟨"A", [1, 2]⟩, ⟨"B", [3]⟩] ++ rest).Perm
        [⟨"A", [1, 2]⟩, ⟨"B", [3]⟩] ∧
      ∀ x ∈ malariaTop [⟨"A", [1, 2]⟩, ⟨"B", [3]⟩], ∀ y ∈ rest,
        rowTotalZ y ≤ rowTotalZ x :=
  top_charts_top10.2.1 [⟨"A", [1, 2]⟩, ⟨"B", [3]⟩]

theorem benign_nil : ∀ e ∈ ([] : List Eff), benignEff e := by
  intro e he
  cases he

theorem benign_read (n : String) : ∀ e ∈ [Eff.readCsv n], benignEff e := by
  intro e he
  rw [List.mem_singleton] at he
  exact Or.inl ⟨n, he⟩

theorem benign_read_save (n : String) :
    ∀ e ∈ [Eff.readCsv n, Eff.savefigBuffer], benignEff e := by
  intro e he
  rw [List.mem_cons, List.mem_singleton] at he
  rcases he with h | h
  · exact Or.inl ⟨n, h⟩
  · exact Or.inr h

theorem aidsChart_benign (fs : Files) (mk : List AidsNumRow → Chart) :
    ∀ e ∈ (aidsChart fs mk).2, benignEff e := by
  unfold aidsChart
  cases load_data fs.aids with
  | none => exact benign_read _
  | some df => exact benign_read_save _

theorem country_profile_aids_benign (fs : Files) (name : String) :
    ∀ e ∈ (country_profile_aids fs name).2, benignEff e := by
  unfold country_profile_aids
  cases load_data fs.aids with
  | none => exact benign_read _
  | some df =>
      dsimp only
      split
      · exact benign_read _
      · exact benign_read_save _

theorem global_deaths_benign (fs : Files) :
    ∀ e ∈ (global_deaths fs).2, benignEff e := by
  unfold global_deaths
  dsimp only
  split
  · exact benign_read _
  · exact benign_read_save _

theorem top_countries_malaria_benign (fs : Files) :
    ∀ e ∈ (top_countries_malaria fs).2, benignEff e := by
  unfold top_countries_malaria
  dsimp only
  split
  · exact benign_read _
  · exact benign_read_save _

theorem country_profile_malaria_benign (fs : Files) (p : Option String) :
    ∀ e ∈ (country_profile_malaria fs p).2, benignEff e := by
  unfold country_profile_malaria
  cases p with
  | none => exact benign_nil
  | some q =>
      dsimp only
      split
      · exact benign_nil
      · split
        · exact benign_read _
        · split
          · split
            · split
              · exact benign_read _
              · exact benign_read_save _
            · exact benign_read _
          · split
            · exact benign_read _
            · exact benign_read_save _

theorem compare_countries_malaria_benign (fs : Files) (p : Option String) :
    ∀ e ∈ (compare_countries_malaria fs p).2, benignEff e := by
  unfold compare_countries_malaria
  cases p with
  | none => exact benign_nil
  | some s =>
      dsimp only
      split
      · exact benign_nil
      · split
        · exact benign_nil
        · split
          · exact benign_read _
          · split
            · exact benign_read _
            · exact benign_read_save _

theorem global_cases_benign (fs : Files) :
    ∀ e ∈ (global_cases fs).2, benignEff e := by
  unfold global_cases
  dsimp only
  split
  · exact benign_read _
  · exact benign_read_save _

theorem top_countries_measles_benign (fs : Files) :
    ∀ e ∈ (top_countries_measles fs).2, benignEff e := by
  unfold top_countries_measles
  dsimp only
  split
  · exact benign_read _
  · exact benign_read_save _

theorem country_profile_measles_benign (fs : Files) (p : Option String) :
    ∀ e ∈ (country_profile_measles fs p).2, benignEff e := by
  unfold country_profile_measles
  cases p with
  | none => exact benign_nil
  | some q =>
      dsimp only
      split
      · exact benign_nil
      · split
        · exact benign_read _
        · split
          · split
            · exact benign_read _
            · split
              · split
                · exact benign_read_save _
                · exact benign_read _
              · split
                · exact benign_read_save _
                · exact benign_read _
          · exact benign_read _

theorem compare_countries_measles_benign (fs : Files) (p : Option String) :
    ∀ e ∈ (compare_countries_measles fs p).2, benignEff e := by
  unfold compare_countries_measles
  cases p with
  | none => exact benign_nil
  | some s =>
      dsimp only
      split
      · exact benign_nil
      · split
        · exact benign_nil
        · split
          · exact benign_read _
          · split
            · exact benign_read _
            · exact benign_read_save _

theorem route_benign (fs : Files) (r : Req) :
    ∀ e ∈ (route fs r).2, benignEff e := by
  cases r with
  | aidsData => exact benign_read _
  | malariaData => exact benign_read _
  | measlesData => exact benign_read _
  | deathsGlobal => exact aidsChart_benign fs _
  | deathsByGroup => exact aidsChart_benign fs _
  | prevalenceGlobal => exact aidsChart_benign fs _
  | prevalenceYoung => exact aidsChart_benign fs _
  | infectionsGlobal => exact aidsChart_benign fs _
  | infectionsByGroup => exact aidsChart_benign fs _
  | plhivGlobal => exact aidsChart_benign fs _
  | plhivByGroup => exact aidsChart_benign fs _
  | topDeaths => exact aidsChart_benign fs _
  | topInfections => exact aidsChart_benign fs _
  | topPlhiv => exact aidsChart_benign fs _
  | topPrevalence => exact aidsChart_benign fs _
  | aidsOrphans => exact aidsChart_benign fs _
  | deathsByGender => exact aidsChart_benign fs _
  | incidenceRate => exact aidsChart_benign fs _
  | aidsCountryProfile name => exact country_profile_aids_benign fs name
  | malariaGlobalDeaths => exact global_deaths_benign fs
  | malariaTopCountries => exact top_countries_malaria_benign fs
  | malariaCountryProfile p => exact country_profile_malaria_benign fs p
  | malariaCompareCountries p => exact compare_countries_malaria_benign fs p
  | measlesGlobalCases => exact global_cases_benign fs
  | measlesTopCountries => exact top_countries_measles_benign fs
  | measlesCountryProfile p => exact country_profile_measles_benign fs p
  | measlesCompareCountries p => exact compare_countries_measles_benign fs p

theorem foldl_applyEff_benign :
    ∀ (l : List Eff) (fs : Files), (∀ e ∈ l, benignEff e) →
      l.foldl applyEff fs = fs
  | [], _, _ => rfl
  | e :: l, fs, h => by
      have hfs : applyEff fs e = fs := by
        rcases h e (by simp) with ⟨n, rfl⟩ | rfl <;> rfl
      rw [List.foldl_cons, hfs]
      exact foldl_applyEff_benign l fs (fun x hx => h x (by simp [hx]))

theorem route_preserves (fs : Files) (r : Req) :
    (route fs r).2.foldl applyEff fs = fs :=
  foldl_applyEff_benign _ _ (route_benign fs r)

theorem runState_eq_filesAfter (events : List Event) :
    ∀ fs : Files, runState fs events = filesAfter fs events := by
  induction events with
  | nil => intro fs; rfl
  | cons e es ih =>
      intro fs
      cases e with
      | write g => exact ih g
      | request r =>
          show runState (stepFiles fs (.request r)) es = filesAfter fs _
          have : stepFiles fs (.request r) = fs := route_preserves fs r
      
          rw [this]
          exact ih fs

/-- C4: endpoints are deterministic and share no state across requests:
whenever two invocations of the same endpoint with the same request
parameters see the same CSV file contents, the computed responses are
identical, regardless of the requests handled before or between them. -/
theorem endpoint_deterministic (fs₁ fs₂ : Files) (ev₁ ev₂ : List Event)
    (r : Req) (h : runState fs₁ ev₁ = runState fs₂ ev₂) :
    serve fs₁ ev₁ r = serve fs₂ ev₂ r := by
  unfold serve
  rw [h]

theorem endpoint_deterministic_witness :
    serve fsErr [Event.request Req.aidsData] Req.malariaData
      = serve fsErr [] Req.malariaData :=
  endpoint_deterministic fsErr fsErr [Event.request Req.aidsData] []
    Req.malariaData rfl

/-- C5: every handler re-reads its CSV on every invocation and never uses
data cached from an earlier request: after any event history the response is
computed from the file contents determined by the write events alone; a
request served right after a file write sees exactly the new contents; and
an interposed request changes no later response. -/
theorem handlers_reread_csv (fs : Files) (events : List Event) (r : Req) :
    serve fs events r = (route (filesAfter fs events) r).1 ∧
    (∀ g : Files, serve fs (events ++ [Event.write g]) r = (route g r).1) ∧
    (∀ r' : Req, serve fs (events ++ [Event.request r']) r
        = serve fs events r) := by
  refine ⟨?_, ?_, ?_⟩
  · unfold serve
    rw [runState_eq_filesAfter]
  · intro g
    unfold serve
    rw [runState_eq_filesAfter]
    unfold filesAfter
    rw [List.foldl_append]
    rfl
  · intro r'
    unfold serve
    rw [runState_eq_filesAfter, runState_eq_filesAfter]
    unfold filesAfter
    rw [List.foldl_append]
    rfl

/-- C7: no handler persists anything: every effect of every handler is a CSV
read or an in-memory buffer write (no file is written, created or deleted),
and folding a handler's effects over the file system leaves the CSV files
unchanged by every request. -/
theorem handlers_no_persistence (fs : Files) (r : Req) :
    (∀ e ∈ (route fs r).2, benignEff e) ∧
    (route fs r).2.foldl applyEff fs = fs :=
  ⟨route_benign fs r, route_preserves fs r⟩

theorem handlers_no_persistence_witness :
    benignEff (Eff.readCsv "aids.csv") ∧
    (route fsErr Req.aidsData).2.foldl applyEff fsErr = fsErr :=
  ⟨(handlers_no_persistence fsErr Req.aidsData).1 (Eff.readCsv "aids.csv")
      (show Eff.readCsv "aids.csv" ∈ [Eff.readCsv "aids.csv"] from
        List.mem_singleton.mpr rfl),
   (handlers_no_persistence fsErr Req.aidsData).2⟩

/-- C6 fails on the code: for `country_profile` (measles_charts.py) with
query `Gui`, the CSV loads successfully and the country lookup succeeds with
two rows ("Guinea", "Guinea-Bissau"), no exact match exists, and the handler
flattens both rows' values into one series of length 4 against a year axis
of length 2, so `ax.plot` raises an uncaught `ValueError` and the service
answers 500 with no PNG — the handler's own comment says the first match
should be used. -/
theorem measles_country_profile_raises :
    (load_measles_data fsGuinea.measles).rows ≠ [] ∧
    ((load_measles_data fsGuinea.measles).rows.filter
        (fun r => containsCI r.country "Gui")).length = 2 ∧
    (route fsGuinea (Req.measlesCountryProfile (some "Gui"))).1
      = ⟨500, Body.exn "ValueError: x and y must have same first dimension",
          none⟩ :=
  ⟨by decide, by decide, rfl⟩

/-! ### C8: the JSON endpoints' error handling -/

theorem jsonEndpointSpec {γ : Type} (e : Except String γ) (f : γ → Json) :
    ((jsonEndpoint e f).status = 200 ↔ ∃ t, e = Except.ok t) ∧
    ∀ m, e = Except.error m → jsonEndpoint e f = errorJson 500 m := by
  cases e with
  | error m =>
      refine ⟨⟨fun h => ?_, fun h => ?_⟩, fun m' hm' => ?_⟩
      · simp [jsonEndpoint, errorJson] at h
      · obtain ⟨t, ht⟩ := h
        cases ht
      · cases hm'
        rfl
  | ok t =>
      refine ⟨⟨fun _ => ⟨t, rfl⟩, fun _ => rfl⟩, fun m hm => ?_⟩
      cases hm

/-- C8: each JSON data endpoint runs its whole pipeline inside `try`: it
answers 200 with the grouped JSON exactly when no step raises, and when a
step raises (here: reading the CSV) it answers 500 with
`{"error": str(e)}`; no exception escapes the handler. -/
theorem json_endpoints_catch_errors (fs : Files) :
    ((get_aids_data fs).1.status = 200 ↔ ∃ t, fs.aids = Except.ok t) ∧
    (∀ m, fs.aids = Except.error m → (get_aids_data fs).1 = errorJson 500 m) ∧
    ((get_malaria_data fs).1.status = 200 ↔ ∃ t, fs.malaria = Except.ok t) ∧
    (∀ m, fs.malaria = Except.error m →
        (get_malaria_data fs).1 = errorJson 500 m) ∧
    ((get_death_data fs).1.status = 200 ↔ ∃ t, fs.measles = Except.ok t) ∧
    (∀ m, fs.measles = Except.error m →
        (get_death_data fs).1 = errorJson 500 m) :=
  ⟨(jsonEndpointSpec fs.aids _).1, (jsonEndpointSpec fs.aids _).2,
   (jsonEndpointSpec fs.malaria _).1, (jsonEndpointSpec fs.malaria _).2,
   (jsonEndpointSpec fs.measles _).1, (jsonEndpointSpec fs.measles _).2⟩

theorem json_endpoints_catch_errors_witness :
    (get_aids_data fsErr).1 = errorJson 500 "boom" :=
  (json_endpoints_catch_errors fsErr).2.1 "boom" rfl

/-! ### C10: the cleaned tables are totally defined -/

theorem malaria_rows_nonneg (rs : List WideRow) (rz : List WideRowZ)
    (h : cleanRows rs = Except.ok rz) :
    ∀ r ∈ rz, ∀ x ∈ r.cells, 0 ≤ x := by
  intro r hr x hx
  rw [cleanRows_ok rs rz h, List.mem_map] at hr
  obtain ⟨r0, _, rfl⟩ := hr
  rw [List.mem_map] at hx
  obtain ⟨c0, _, rfl⟩ := hx
  exact extract_number_nonneg c0

/-- C10: after `load_data` (charts_api.py) every `Data.` cell is populated
(no NaN survives `to_numeric` + `fillna(0)`); after `load_measles_data`
every year cell is populated; and every year cell of the table
`load_malaria_data` yields — whenever the cleaning loop succeeds, and for
every file state (an overflow empties the table rather than producing a
negative) — is a non-negative integer.  So every downstream sum, mean and
nlargest operates on totally defined numeric columns. -/
theorem cleaned_tables_total (t : List AidsRawRow) (w v : WideTable) :
    (∀ r ∈ load_data_table t, ∀ c : ACol, (r.data c).isSome) ∧
    (∀ r ∈ load_measles_clean w, ∀ x ∈ r.cells, x.isSome) ∧
    (∀ rows : List WideRowZ, load_malaria_clean v = Except.ok rows →
        ∀ r ∈ rows, ∀ x ∈ r.cells, 0 ≤ x) ∧
    (∀ e : Except String WideTable,
        ∀ r ∈ (load_malaria_data e).rows, ∀ x ∈ r.cells, 0 ≤ x) := by
  refine ⟨?_, ?_, ?_, ?_⟩
  · intro r hr c
    rw [load_data_table, List.mem_map] at hr
    obtain ⟨r0, _, rfl⟩ := hr
    rfl
  · intro r hr x hx
    rw [load_measles_clean, List.mem_map] at hr
    obtain ⟨r0, _, rfl⟩ := hr
    rw [List.mem_map] at hx
    obtain ⟨c0, _, rfl⟩ := hx
    rfl
  · intro rows h
    exact malaria_rows_nonneg v.rows rows h
  · intro e
    cases e with
    | error m => intro r hr; exact absurd hr (List.not_mem_nil r)
    | ok t' =>
        have hload : load_malaria_data (Except.ok t')
            = (match load_malaria_clean t' with
               | .error _ => (⟨[], []⟩ : WideTableZ)
               | .ok rows => ⟨t'.cols, rows⟩) := rfl
        cases h : load_malaria_clean t' with
        | error m =>
            rw [hload, h]
            intro r hr
            exact absurd hr (List.not_mem_nil r)
        | ok rows =>
            rw [hload, h]
            exact malaria_rows_nonneg t'.rows rows h

theorem cleaned_tables_total_witness : (0 : ℤ) ≤ 5 :=
  (cleaned_tables_total [] ⟨[], []⟩ ⟨[], []⟩).2.2.2
    (Except.ok malariaTinyTable) ⟨"A", [5]⟩ (by decide) 5 (by decide)

/-! ### C9: status codes of the country_profile endpoints -/

theorem cpa_404_iff (fs : Files) (t : List AidsRawRow) (name : String)
    (h : fs.aids = Except.ok t) :
    ((country_profile_aids fs name).1.status = 404
      ↔ (load_data_table t).filter
          (fun r => strLower r.country = strLower name) = []) := by
  unfold country_profile_aids
  rw [show load_data fs.aids = some (load_data_table t) by rw [h]; rfl]
  dsimp only
  by_cases hc : ((load_data_table t).filter
      (fun r => strLower r.country = strLower name)).isEmpty
  · rw [if_pos hc]
    exact iff_of_true rfl (List.isEmpty_iff.mp hc)
  · rw [if_neg hc]
    refine iff_of_false ?_ ?_
    · simp [pngResp]
    · intro hh
      exact hc (by rw [hh]; rfl)

theorem cpm_400_iff (fs : Files) (p : Option String) :
    ((country_profile_malaria fs p).1.status = 400 ↔ (p = none ∨ p = some "")) := by
  cases p with
  | none => simp [country_profile_malaria, errorJson]
  | some q =>
      by_cases hq : q = ""
      · subst hq
        simp [country_profile_malaria, errorJson]
      · simp only [country_profile_malaria]
        rw [if_neg hq]
        refine iff_of_false ?_ ?_
        · intro h
          revert h
          split
          · simp [errorJson]
          · split
            · split
              · split
                · simp [errorJson]
                · simp [pngResp]
              · simp
            · split
              · simp [errorJson]
              · simp [pngResp]
        · rintro (h | h)
          · exact Option.noConfusion h
          · exact hq (Option.some.inj h)

theorem cpme_400_iff (fs : Files) (p : Option String) :
    ((country_profile_measles fs p).1.status = 400 ↔ (p = none ∨ p = some "")) := by
  cases p with
  | none => simp [country_profile_measles, errorJson]
  | some q =>
      by_cases hq : q = ""
      · subst hq
        simp [country_profile_measles, errorJson]
      · simp only [country_profile_measles]
        rw [if_neg hq]
        refine iff_of_false ?_ ?_
        · intro h
          revert h
          split
          · simp [errorJson]
          · split
            · split
              · simp [errorJson]
              · split
                · split
                  · simp [pngResp]
                  · simp
                · split
                  · simp [pngResp]
                  · simp
            · simp
        · rintro (h | h)
          · exact Option.noConfusion h
          · exact hq (Option.some.inj h)

theorem cpm_404_iff (fs : Files) (q : String) (hq : q ≠ "")
    (hrows : (load_malaria_data fs.malaria).rows ≠ [])
    (hre : rePatOk (lowerChars q.data) = true) :
    ((country_profile_malaria fs (some q)).1.status = 404
      ↔ ((load_malaria_data fs.malaria).rows.filter
            (fun r => strLower r.country = strLower q) = []
        ∧ (load_malaria_data fs.malaria).rows.filter
            (fun r => containsCI r.country q) = [])) := by
  simp only [country_profile_malaria]
  rw [if_neg hq]
  rw [if_neg (by simpa using hrows)]
  by_cases he : (load_malaria_data fs.malaria).rows.filter
      (fun r => strLower r.country = strLower q) = []
  · rw [if_pos (by simp [he]), if_pos hre]
    cases hc : (load_malaria_data fs.malaria).rows.filter
        (fun r => containsCI r.country q) with
    | nil =>
        simp only [hc]
        exact iff_of_true rfl ⟨he, trivial⟩
    | cons a l =>
        simp only [hc]
        refine iff_of_false (by simp [pngResp]) ?_
        rintro ⟨_, h2⟩
        exact List.noConfusion h2
  · cases hex : (load_malaria_data fs.malaria).rows.filter
        (fun r => strLower r.country = strLower q) with
    | nil => exact absurd hex he
    | cons a l =>
        rw [if_neg (by simp [hex])]
        simp only [hex]
        refine iff_of_false (by simp [pngResp]) ?_
        rintro ⟨h1, _⟩
        exact List.noConfusion h1

theorem cpme_404_iff (fs : Files) (q : String) (hq : q ≠ "")
    (hrows : (load_measles_data fs.measles).rows ≠ [])
    (hre : rePatOk (lowerChars q.data) = true) :
    ((country_profile_measles fs (some q)).1.status = 404
      ↔ (load_measles_data fs.measles).rows.filter
          (fun r => containsCI r.country q) = []) := by
  simp only [country_profile_measles]
  rw [if_neg hq]
  rw [if_neg (by simpa using hrows), if_pos hre]
  by_cases hc : (load_measles_data fs.measles).rows.filter
      (fun r => containsCI r.country q) = []
  · rw [if_pos (by simp [hc])]
    exact iff_of_true rfl hc
  · rw [if_neg (by simp [hc])]
    refine iff_of_false ?_ hc
    intro h
    revert h
    split
    · split
      · simp [pngResp]
      · simp [errorJson]
    · split
      · simp [pngResp]
      · simp [errorJson]

/-- C9 fails on the code: `str.contains` is regex-based (pandas default
`regex=True`), not the literal containment the claim describes.  Query `(`
on a table whose only country is `Chad`: no country name literally contains
`(`, so the claim says 404, but `re.compile` raises `re.error` uncaught and
the service answers 500.  Query `Iran (Islamic Republic of)` on a table
containing exactly that country: the name literally contains the query (it
equals it), so the claim says not-404, but the parentheses are parsed as a
regex group — the pattern matches only the name without parentheses — and
the service answers 404. -/
theorem country_profile_regex_counterexample :
    ((route fsChad (Req.measlesCountryProfile (some "("))).1.status = 500 ∧
      (load_measles_data fsChad.measles).rows.filter
        (fun r => literalContainsCI r.country "(") = []) ∧
    ((route fsIran (Req.measlesCountryProfile
        (some "Iran (Islamic Republic of)"))).1.status = 404 ∧
      (load_measles_data fsIran.measles).rows.filter
        (fun r => literalContainsCI r.country "Iran (Islamic Republic of)")
        ≠ []) := by
  refine ⟨⟨?_, ?_⟩, ?_, ?_⟩ <;> decide

/-- C9 (amended): each `country_profile` endpoint answers 404 exactly when
its lookup finds no matching row — case-insensitive equality on `Country`
for charts_api.py (given a successful load); for malaria_charts.py and
measles_charts.py, given a successful non-empty load and a query whose
pattern compiles as a regular expression of literals and balanced groups
(in particular every metacharacter-free query), case-insensitive equality
or regex-contains, resp. regex-contains — a query whose pattern does not
compile raises `re.error` and answers 500, and grouping parentheses match
by regex, not literally.  malaria_charts.py and measles_charts.py answer
400 exactly when the `country` query parameter is missing or empty, checked
before the CSV is loaded (the 400 answer neither depends on the files nor
performs a read). -/
theorem country_profile_status_codes :
    (∀ (fs : Files) (t : List AidsRawRow) (name : String),
      fs.aids = Except.ok t →
      ((country_profile_aids fs name).1.status = 404
        ↔ (load_data_table t).filter
            (fun r => strLower r.country = strLower name) = [])) ∧
    (∀ fs fs' : Files,
      country_profile_malaria fs none = country_profile_malaria fs' none ∧
      country_profile_malaria fs (some "")
        = country_profile_malaria fs' (some "") ∧
      country_profile_measles fs none = country_profile_measles fs' none ∧
      country_profile_measles fs (some "")
        = country_profile_measles fs' (some "")) ∧
    (∀ fs : Files,
      (country_profile_malaria fs none).2 = [] ∧
      (country_profile_measles fs none).2 = []) ∧
    (∀ (fs : Files) (p : Option String),
      ((country_profile_malaria fs p).1.status = 400
        ↔ (p = none ∨ p = some "")) ∧
      ((country_profile_measles fs p).1.status = 400
        ↔ (p = none ∨ p = some ""))) ∧
    (∀ (fs : Files) (q : String), q ≠ "" →
      (load_malaria_data fs.malaria).rows ≠ [] →
      rePatOk (lowerChars q.data) = true →
      ((country_profile_malaria fs (some q)).1.status = 404
        ↔ ((load_malaria_data fs.malaria).rows.filter
              (fun r => strLower r.country = strLower q) = []
          ∧ (load_malaria_data fs.malaria).rows.filter
              (fun r => containsCI r.country q) = []))) ∧
    (∀ (fs : Files) (q : String), q ≠ "" →
      (load_measles_data fs.measles).rows ≠ [] →
      rePatOk (lowerChars q.data) = true →
      ((country_profile_measles fs (some q)).1.status = 404
        ↔ (load_measles_data fs.measles).rows.filter
            (fun r => containsCI r.country q) = [])) :=
  ⟨cpa_404_iff,
   fun _ _ => ⟨rfl, rfl, rfl, rfl⟩,
   fun _ => ⟨rfl, rfl⟩,
   fun fs p => ⟨cpm_400_iff fs p, cpme_400_iff fs p⟩,
   cpm_404_iff,
   cpme_404_iff⟩

theorem country_profile_status_codes_witness :
    ((country_profile_malaria malariaTinyFs (some "zzz")).1.status = 404
      ↔ ((load_malaria_data malariaTinyFs.malaria).rows.filter
            (fun r => strLower r.country = strLower "zzz") = []
        ∧ (load_malaria_data malariaTinyFs.malaria).rows.filter
            (fun r => containsCI r.country "zzz") = [])) :=
  country_profile_status_codes.2.2.2.2.1 malariaTinyFs "zzz"
    (by decide) (by decide) (by decide)
